import Mathlib

/-!
The package `openweathermap_1c_api`, a client of the One Call API.

A shallow embedding of `one-call-api.go` and of the parts of the Go standard
library its behaviour rests on (`fmt.Sprintf` for the request URL,
`encoding/json` for the decoding of the response into `Response`, and the
`net/http` round trip, which is modelled as a recorded exchange).
-/

set_option maxRecDepth 1000000

namespace OneCall

/-! ## Go values that are printed into the URL -/

/-- A float64, identified by the shortest decimal digit string that
`strconv` generates for it: a finite value is `±0.d₁d₂…dₙ × 10^dp` with
`d₁ ≠ 0` and `dₙ ≠ 0` (no digits at all for zero). -/
inductive Float64 where
  | finite (neg : Bool) (digits : List Nat) (dp : Int)
  | inf (neg : Bool)
  | nan
  deriving DecidableEq, Repr

/-- The zero value of a Go float. -/
def Float64.zero : Float64 := .finite false [] 0

/-- The ASCII character of a decimal digit. -/
def digitChar (d : Nat) : Char := Char.ofNat (48 + d % 10)

/-- Decimal digits of a natural number, most significant first; `fuel`
bounds the number of digits produced. -/
def natDigitsAux : Nat → Nat → List Char → List Char
  | 0, _, acc => acc
  | fuel + 1, n, acc =>
    if n < 10 then digitChar n :: acc
    else natDigitsAux fuel (n / 10) (digitChar (n % 10) :: acc)

/-- Decimal rendering of a natural number (`strconv.FormatUint(n, 10)`). -/
def natDigits (n : Nat) : List Char := natDigitsAux (n + 1) n []

/-- Decimal rendering of an integer (`strconv.FormatInt(i, 10)`). -/
def intDigits (i : Int) : List Char :=
  if i < 0 then '-' :: natDigits i.natAbs else natDigits i.natAbs

/-- The function `strconv.fmtF` on the digits `d` with decimal point `dp`, printing `prec`
fraction digits. -/
def fmtF (neg : Bool) (d : List Nat) (dp : Int) (prec : Nat) : List Char :=
  let sign := if neg then ['-'] else []
  let intPart :=
    if 0 < dp then
      let m := min d.length dp.toNat
      (d.take m).map digitChar ++ List.replicate (dp.toNat - m) '0'
    else ['0']
  let frac :=
    if 0 < prec then
      '.' :: (List.range prec).map (fun i =>
        let j : Int := dp + i
        if 0 ≤ j ∧ j < d.length then digitChar (d.getD j.toNat 0) else '0')
    else []
  sign ++ intPart ++ frac

/-- The function `strconv.fmtE` on the digits `d` with decimal point `dp`, printing `prec`
digits after the point. -/
def fmtE (neg : Bool) (d : List Nat) (dp : Int) (prec : Nat) : List Char :=
  let sign := if neg then ['-'] else []
  let first := match d with
    | [] => '0'
    | x :: _ => digitChar x
  let more :=
    if 0 < prec then
      let m := min d.length (prec + 1)
      '.' :: ((d.take m).drop 1).map digitChar ++ List.replicate (prec + 1 - max m 1) '0'
    else []
  let exp : Int := if d.length = 0 then 0 else dp - 1
  let esign := if exp < 0 then '-' else '+'
  let e := exp.natAbs
  let edigits :=
    if e < 10 then ['0', digitChar e]
    else if e < 100 then [digitChar (e / 10), digitChar (e % 10)]
    else [digitChar (e / 100), digitChar (e / 10 % 10), digitChar (e % 10)]
  sign ++ first :: more ++ 'e' :: esign :: edigits

/-- The `%v` rendering of a float64: `strconv.FormatFloat(f, 'g', -1, 64)`,
with `NaN`, `+Inf` and `-Inf` for the special values. -/
def Float64.fmtV : Float64 → List Char
  | .nan => "NaN".data
  | .inf false => "+Inf".data
  | .inf true => "-Inf".data
  | .finite neg d dp =>
    let exp := dp - 1
    if exp < -4 ∨ exp ≥ 6 then fmtE neg d dp (d.length - 1)
    else fmtF neg d dp ((d.length : Int) - dp).toNat

/-- An operand of `fmt.Sprintf`, with its dynamic type. -/
inductive Arg where
  | string (s : String)
  | float64 (f : Float64)
  | int64 (i : Int)
  deriving DecidableEq, Repr

/-- Name of the operand's dynamic type, `reflect.TypeOf(arg).String()`. -/
def Arg.typeName : Arg → List Char
  | .string _ => "string".data
  | .float64 _ => "float64".data
  | .int64 _ => "int64".data

/-- The operand printed with the verb `%v`. -/
def Arg.fmtV : Arg → List Char
  | .string s => s.data
  | .float64 f => f.fmtV
  | .int64 i => intDigits i

/-- The operand printed with `verb`. Only `%v` is modelled, the one verb of
the repository's templates; any other verb is rendered in the bad-verb
notation `%!verb(type=value)`. -/
def printArg (a : Arg) (verb : Char) : List Char :=
  if verb = 'v' then a.fmtV
  else '%' :: '!' :: verb :: '(' :: a.typeName ++ '=' :: a.fmtV ++ [')']

/-- The trailer `fmt` appends when operands are left over once the format is
exhausted: `%!(EXTRA type=value, type=value)`. -/
def extraArgs : List Arg → List Char
  | [] => []
  | args =>
    "%!(EXTRA ".data ++
      ", ".data.intercalate (args.map fun a => a.typeName ++ '=' :: a.fmtV) ++ [')']

/-- The scan of `fmt`'s `doPrintf` over a format without flags, widths or
explicit argument indexes: text is copied, `%%` prints a percent sign, a
verb consumes the next operand (`%!v(MISSING)` when none is left), a
trailing `%` prints `%!(NOVERB)`, and the operands left over are reported
in a trailer. -/
def doPrintf : List Char → List Arg → List Char
  | [], args => extraArgs args
  | ['%'], args => "%!(NOVERB)".data ++ extraArgs args
  | '%' :: '%' :: rest, args => '%' :: doPrintf rest args
  | '%' :: verb :: rest, [] => '%' :: '!' :: verb :: "(MISSING)".data ++ doPrintf rest []
  | '%' :: verb :: rest, a :: args => printArg a verb ++ doPrintf rest args
  | c :: rest, args => c :: doPrintf rest args

/-- The function `fmt.Sprintf`. -/
def Sprintf (format : String) (args : List Arg) : String :=
  String.mk (doPrintf format.data args)

/-! ## The constants of the package -/

def Schema : String := "https"
def Domain : String := "api.openweathermap.org"
def PathTmpl : String := "/data/%v/"
def Version : String := "2.5"
def Resource : String := "onecall?lat=%v&lon=%v&exclude=hourly,daily&appid=%v"

/-- The function `getBasicUrlTemplate`. -/
def getBasicUrlTemplate : String :=
  Schema ++ "://" ++ Domain ++ PathTmpl ++ Resource

/-! ## Errors -/

/-- The error values that reach the caller of the package. -/
inductive Error where
  /-- The package variable `MissingApiKey`, `errors.New("no API key present")`. -/
  | MissingApiKey
  /-- An error made outside the package: by the network stack, by the reader
  of a response body or by its closer. -/
  | external (msg : String)
  /-- The `*json.SyntaxError` of `encoding/json` (its byte offset is omitted). -/
  | SyntaxError (msg : String)
  /-- The `*json.UnmarshalTypeError` of `encoding/json`: the JSON `value` does
  not fit a Go value of type `type` (offset and field path are omitted). -/
  | UnmarshalTypeError (value : String) (type : String)
  /-- The `*json.UnsupportedValueError` of `json.Marshal`. -/
  | UnsupportedValueError (str : String)
  deriving DecidableEq, Repr

/-! ## JSON text -/

/-- A JSON value as `encoding/json` scans it; a number keeps its literal. -/
inductive JSON where
  | null
  | bool (b : Bool)
  | number (lit : String)
  | string (s : String)
  | array (elems : List JSON)
  | object (members : List (String × JSON))
  deriving Repr

/-- The scanner's `isSpace`. -/
def isSpace (c : Char) : Bool :=
  c = ' ' || c = '\t' || c = '\r' || c = '\n'

/-- Drop leading white space. -/
def skipSpace : List Char → List Char
  | [] => []
  | c :: cs => if isSpace c then skipSpace cs else c :: cs

/-- Whether the character is one of `0` … `9`. -/
def isDigit (c : Char) : Bool := '0' ≤ c && c ≤ '9'

/-- The lower-case hexadecimal digit of a number below 16. -/
def hexChar (n : Nat) : Char :=
  "0123456789abcdef".data.getD (n % 16) '0'

/-- The first byte of the UTF-8 encoding of a character: the byte at which
the scanner stops when the character is not allowed. -/
def firstByte (c : Char) : Nat :=
  if c.toNat < 0x80 then c.toNat
  else if c.toNat < 0x800 then 0xC0 + c.toNat / 64
  else if c.toNat < 0x10000 then 0xE0 + c.toNat / 4096
  else 0xF0 + c.toNat / 262144

/-- The inside of `strconv.Quote(string(rune(b)))` for a byte `b`: a
printable character stands for itself, the others are escaped. -/
def quoteByte (b : Nat) : List Char :=
  if b = 92 then ['\\', '\\']
  else if (0x20 ≤ b ∧ b < 0x7f) ∨ (0xA1 ≤ b ∧ b ≤ 0xFF ∧ b ≠ 0xAD) then [Char.ofNat b]
  else if b = 7 then ['\\', 'a']
  else if b = 8 then ['\\', 'b']
  else if b = 12 then ['\\', 'f']
  else if b = 10 then ['\\', 'n']
  else if b = 13 then ['\\', 'r']
  else if b = 9 then ['\\', 't']
  else if b = 11 then ['\\', 'v']
  else if b < 0x20 ∨ b = 0x7f then ['\\', 'x', hexChar (b / 16), hexChar b]
  else ['\\', 'u', '0', '0', hexChar (b / 16), hexChar b]

/-- The scanner's `quoteChar`, used in its messages: the offending byte
between single quotes. -/
def quoteChar (c : Char) : String :=
  if c = '\'' then "'\\''"
  else if c = '"' then "'\"'"
  else String.mk ('\'' :: quoteByte (firstByte c) ++ ['\''])

/-- The syntax error raised on reading `cs` where `context` does not allow
its first character; at the end of the input it is the error of a
truncated text. -/
def syntaxError (cs : List Char) (context : String) : Error :=
  match cs with
  | [] => .SyntaxError "unexpected end of JSON input"
  | c :: _ => .SyntaxError ("invalid character " ++ quoteChar c ++ " " ++ context)

/-- The rest of a literal name (`true`, `false`, `null`), whose first
character has been read; `expected` holds the characters still due. -/
def scanLiteral (name : String) : List Char → List Char → Except Error (List Char)
  | [], cs => .ok cs
  | e :: es, c :: cs =>
    if c = e then scanLiteral name es cs
    else .error (syntaxError (c :: cs)
      ("in literal " ++ name ++ " (expecting " ++ quoteChar e ++ ")"))
  | _ :: _, [] => .error (syntaxError [] "")

/-- The exponent part of a number, if any; `lit` is the literal so far. -/
def scanExponent (lit : List Char) : List Char → Except Error (List Char × List Char)
  | [] => .ok (lit, [])
  | e :: r =>
    if e = 'e' ∨ e = 'E' then
      let signed : List Char × List Char := match r with
        | '+' :: x => (['+'], x)
        | '-' :: x => (['-'], x)
        | _ => ([], r)
      let ds := signed.2.span isDigit
      if ds.1 = [] then .error (syntaxError ds.2 "in exponent of numeric literal")
      else .ok (lit ++ e :: signed.1 ++ ds.1, ds.2)
    else .ok (lit, e :: r)

/-- The fraction and exponent parts of a number, if any. -/
def scanFraction (lit : List Char) : List Char → Except Error (List Char × List Char)
  | '.' :: r =>
    let ds := r.span isDigit
    if ds.1 = [] then .error (syntaxError ds.2 "after decimal point in numeric literal")
    else scanExponent (lit ++ '.' :: ds.1) ds.2
  | cs => scanExponent lit cs

/-- A JSON number at the head of the input: its literal and the rest. -/
def scanNumber (cs : List Char) : Except Error (List Char × List Char) :=
  let signed : List Char × List Char := match cs with
    | '-' :: r => (['-'], r)
    | _ => ([], cs)
  match signed.2 with
  | [] => .error (syntaxError [] "")
  | c :: r =>
    if c = '0' then scanFraction (signed.1 ++ ['0']) r
    else if isDigit c then
      let ds := r.span isDigit
      scanFraction (signed.1 ++ c :: ds.1) ds.2
    else .error (syntaxError (c :: r) "in numeric literal")

/-- Value of a hexadecimal digit. -/
def hexDigit (c : Char) : Option Nat :=
  if '0' ≤ c ∧ c ≤ '9' then some (c.toNat - 48)
  else if 'a' ≤ c ∧ c ≤ 'f' then some (c.toNat - 87)
  else if 'A' ≤ c ∧ c ≤ 'F' then some (c.toNat - 55)
  else none

/-- The decoder's `getu4`: the code unit of a `\uXXXX` escape at the head of
the input. -/
def getu4 : List Char → Option Nat
  | '\\' :: 'u' :: a :: b :: c :: d :: _ =>
    match hexDigit a, hexDigit b, hexDigit c, hexDigit d with
    | some a, some b, some c, some d => some (a * 4096 + b * 256 + c * 16 + d)
    | _, _, _, _ => none
  | _ => none

/-- The first character among `cs` that is not a hexadecimal digit, with
what follows it (for the message of a bad `\u` escape). -/
def firstNonHex : List Char → List Char
  | [] => []
  | c :: cs => if (hexDigit c).isSome then firstNonHex cs else c :: cs

/-- A string literal whose opening quote has been read: the scan up to the
closing quote together with the decoder's `unquote` (escapes are resolved,
a surrogate pair is combined, a lone surrogate becomes U+FFFD). `acc` holds
the characters read so far, last first. -/
def scanString : Nat → List Char → List Char → Except Error (String × List Char)
  | 0, cs, _ => .error (syntaxError cs "in string literal")
  | _ + 1, [], _ => .error (syntaxError [] "")
  | fuel + 1, c :: cs, acc =>
    if c = '"' then .ok (String.mk acc.reverse, cs)
    else if c = '\\' then
      match cs with
      | [] => .error (syntaxError [] "")
      | e :: rest =>
        if e = 'u' then
          match getu4 (c :: cs) with
          | none => .error (syntaxError (firstNonHex (rest.take 4))
              "in \\u hexadecimal character escape")
          | some rr =>
            let after := rest.drop 4
            if 0xD800 ≤ rr ∧ rr < 0xE000 then
              match getu4 after with
              | some rr1 =>
                if rr < 0xDC00 ∧ 0xDC00 ≤ rr1 ∧ rr1 < 0xE000 then
                  scanString fuel (after.drop 6)
                    (Char.ofNat ((rr - 0xD800) * 1024 + (rr1 - 0xDC00) + 0x10000) :: acc)
                else scanString fuel after (Char.ofNat 0xFFFD :: acc)
              | none => scanString fuel after (Char.ofNat 0xFFFD :: acc)
            else scanString fuel after (Char.ofNat rr :: acc)
        else if e = 'b' then scanString fuel rest (Char.ofNat 8 :: acc)
        else if e = 'f' then scanString fuel rest (Char.ofNat 12 :: acc)
        else if e = 'n' then scanString fuel rest ('\n' :: acc)
        else if e = 'r' then scanString fuel rest ('\r' :: acc)
        else if e = 't' then scanString fuel rest ('\t' :: acc)
        else if e = '\\' ∨ e = '/' ∨ e = '"' then scanString fuel rest (e :: acc)
        else .error (syntaxError (e :: rest) "in string escape code")
    else if c.toNat < 0x20 then .error (syntaxError (c :: cs) "in string literal")
    else scanString fuel cs (c :: acc)

/-- The scanner's `maxNestingDepth`. -/
def maxNestingDepth : Nat := 10000

mutual
/-- One JSON value at the head of the input, after optional white space;
`depth` counts the objects and arrays that are open around it. -/
def parseValue : Nat → Nat → List Char → Except Error (JSON × List Char)
  | 0, _, cs => .error (syntaxError cs "beyond the scanner's fuel")
  | fuel + 1, depth, cs =>
    match skipSpace cs with
    | [] => .error (syntaxError [] "")
    | c :: rest =>
      if c = Char.ofNat 0x7b then
        if maxNestingDepth ≤ depth then .error (.SyntaxError "exceeded max depth")
        else
          match skipSpace rest with
          | [] => .error (syntaxError [] "")
          | c1 :: rest1 =>
            if c1 = Char.ofNat 0x7d then .ok (.object [], rest1)
            else
              match parseMembers fuel (depth + 1) (c1 :: rest1) with
              | .error e => .error e
              | .ok (ms, r) => .ok (.object ms, r)
      else if c = '[' then
        if maxNestingDepth ≤ depth then .error (.SyntaxError "exceeded max depth")
        else
          match skipSpace rest with
          | ']' :: rest1 => .ok (.array [], rest1)
          | rest1 =>
            match parseElems fuel (depth + 1) rest1 with
            | .error e => .error e
            | .ok (es, r) => .ok (.array es, r)
      else if c = '"' then
        match scanString (rest.length + 1) rest [] with
        | .error e => .error e
        | .ok (s, r) => .ok (.string s, r)
      else if c = 't' then
        match scanLiteral "true" ['r', 'u', 'e'] rest with
        | .error e => .error e
        | .ok r => .ok (.bool true, r)
      else if c = 'f' then
        match scanLiteral "false" ['a', 'l', 's', 'e'] rest with
        | .error e => .error e
        | .ok r => .ok (.bool false, r)
      else if c = 'n' then
        match scanLiteral "null" ['u', 'l', 'l'] rest with
        | .error e => .error e
        | .ok r => .ok (.null, r)
      else if c = '-' ∨ isDigit c then
        match scanNumber (c :: rest) with
        | .error e => .error e
        | .ok (lit, r) => .ok (.number (String.mk lit), r)
      else .error (syntaxError (c :: rest) "looking for beginning of value")
/-- The members of a non-empty object, from the first key to the closing
brace. -/
def parseMembers : Nat → Nat → List Char → Except Error (List (String × JSON) × List Char)
  | 0, _, cs => .error (syntaxError cs "beyond the scanner's fuel")
  | fuel + 1, depth, cs =>
    match cs with
    | '"' :: rest =>
      match scanString (rest.length + 1) rest [] with
      | .error e => .error e
      | .ok (key, r1) =>
        match skipSpace r1 with
        | ':' :: r2 =>
          match parseValue fuel depth r2 with
          | .error e => .error e
          | .ok (v, r3) =>
            match skipSpace r3 with
            | [] => .error (syntaxError [] "")
            | c4 :: r4 =>
              if c4 = ',' then
                match parseMembers fuel depth (skipSpace r4) with
                | .error e => .error e
                | .ok (ms, r5) => .ok ((key, v) :: ms, r5)
              else if c4 = Char.ofNat 0x7d then .ok ([(key, v)], r4)
              else .error (syntaxError (c4 :: r4) "after object key:value pair")
        | r2 => .error (syntaxError r2 "after object key")
    | cs => .error (syntaxError cs "looking for beginning of object key string")
/-- The elements of a non-empty array, from the first one to the closing
bracket. -/
def parseElems : Nat → Nat → List Char → Except Error (List JSON × List Char)
  | 0, _, cs => .error (syntaxError cs "beyond the scanner's fuel")
  | fuel + 1, depth, cs =>
    match parseValue fuel depth cs with
    | .error e => .error e
    | .ok (v, r1) =>
      match skipSpace r1 with
      | ',' :: r2 =>
        match parseElems fuel depth r2 with
        | .error e => .error e
        | .ok (es, r3) => .ok (v :: es, r3)
      | ']' :: r2 => .ok ([v], r2)
      | r2 => .error (syntaxError r2 "after array element")
end

/-- The scan of a whole text, `checkValid` followed by the read of its one
value: white space, a value, white space, end of input. Of any two
consecutive calls of the three functions above at least one consumes a
character, so a fuel of twice the length of the text is never used up. -/
def parseJSON (data : String) : Except Error JSON :=
  match parseValue (2 * data.data.length + 2) 0 data.data with
  | .error e => .error e
  | .ok (j, rest) =>
    match skipSpace rest with
    | [] => .ok j
    | c :: cs => .error (syntaxError (c :: cs) "after top-level value")

/-! ## The data model: the struct types of the package -/

/-- The kinds of the basic types met in the package's structs. -/
inductive Kind where
  | int | int32 | uint16 | uint32 | float32 | float64 | string
  deriving DecidableEq, Repr

/-- One field of a struct declaration: its Go name, whether it is embedded
(declared by its type alone), the name given in its `json:"…"` tag (empty
when it has no tag) and its type. -/
structure StructField (τ : Type) where
  name : String
  embedded : Bool
  tag : String
  type : τ
  deriving Repr

/-- A Go type of the package, as `reflect` presents it. -/
inductive GoType where
  | basic (k : Kind)
  | slice (elem : GoType)
  | struct (name : String) (fields : List (StructField GoType))
  deriving Repr

def Coordinate : GoType := .struct "Coordinate" [
  ⟨"Lat", false, "lat", .basic .float64⟩,
  ⟨"Lon", false, "lon", .basic .float64⟩]

def TZ : GoType := .struct "TZ" [
  ⟨"Timezone", false, "timezone", .basic .string⟩,
  ⟨"Offset", false, "timezone_offset", .basic .int32⟩]

def Sun : GoType := .struct "Sun" [
  ⟨"Rise", false, "sunrise", .basic .uint32⟩,
  ⟨"Set", false, "sunset", .basic .uint32⟩]

def Main : GoType := .struct "Main" [
  ⟨"Temp", false, "temp", .basic .float64⟩,
  ⟨"FeelsLike", false, "feels_like", .basic .float64⟩,
  ⟨"Pressure", false, "pressure", .basic .int⟩,
  ⟨"Humidity", false, "humidity", .basic .int⟩,
  ⟨"TempMin", false, "temp_min", .basic .float64⟩,
  ⟨"TempMax", false, "temp_max", .basic .float64⟩]

def Weather : GoType := .struct "Weather" [
  ⟨"Id", false, "id", .basic .int⟩,
  ⟨"Main", false, "main", .basic .string⟩,
  ⟨"Description", false, "description", .basic .string⟩,
  ⟨"Icon", false, "icon", .basic .string⟩]

def Clouds : GoType := .struct "Clouds" [
  ⟨"All", false, "all", .basic .int⟩]

def Wind : GoType := .struct "Wind" [
  ⟨"Speed", false, "wind_speed", .basic .float32⟩,
  ⟨"Deg", false, "wind_deg", .basic .uint16⟩]

def Rain : GoType := .struct "Rain" [
  ⟨"Threehr", false, "3h", .basic .int⟩]

def Uvi : GoType := .struct "Uvi" [
  ⟨"Value", false, "uvi", .basic .float32⟩]

/-- The struct `Section`, shared by current, minutely and hourly. -/
def Section : GoType := .struct "Section" [
  ⟨"Dt", false, "dt", .basic .int⟩,
  ⟨"Sun", true, "", Sun⟩,
  ⟨"Main", true, "main", Main⟩,
  ⟨"Wind", true, "wind", Wind⟩,
  ⟨"Rain", true, "rain", Rain⟩,
  ⟨"Clouds", true, "clouds", Clouds⟩,
  ⟨"Uvi", true, "uvi", Uvi⟩,
  ⟨"Weather", false, "weather", .slice Weather⟩]

def Current : GoType := .struct "Current" [⟨"Section", true, "", Section⟩]

def Hourly : GoType := .struct "Hourly" [⟨"Section", true, "", Section⟩]

def Minutely : GoType := .struct "Minutely" [⟨"Section", true, "", Section⟩]

def Response : GoType := .struct "Response" [
  ⟨"Coordinate", true, "", Coordinate⟩,
  ⟨"TZ", true, "", TZ⟩,
  ⟨"Current", true, "", Current⟩,
  ⟨"Hourly", true, "", Hourly⟩,
  ⟨"Minutely", true, "", Minutely⟩]

/-- A Go value, by the shape of its type: a struct value lists the values
of its fields in declaration order; a slice is `nil` or holds elements. -/
inductive GoValue where
  | int (i : Int)
  | float (f : Float64)
  | string (s : String)
  | nil
  | slice (elems : List GoValue)
  | struct (fields : List GoValue)
  deriving Repr

mutual
/-- The zero value of a type. -/
def zeroValue : GoType → GoValue
  | .basic .string => .string ""
  | .basic .float32 => .float Float64.zero
  | .basic .float64 => .float Float64.zero
  | .basic _ => .int 0
  | .slice _ => .nil
  | .struct _ fields => .struct (zeroFields fields)
/-- The zero values of the fields of a struct. -/
def zeroFields : List (StructField GoType) → List GoValue
  | [] => []
  | f :: fs => zeroValue f.type :: zeroFields fs
end

/-- The value found by following a field index sequence through nested
struct values (`reflect.Value.Field` at each step). -/
def getPath : List Nat → GoValue → GoValue
  | i :: rest, .struct fields => getPath rest (fields.getD i .nil)
  | _, v => v

/-- The value with the field at a field index sequence replaced. -/
def setPath : List Nat → GoValue → GoValue → GoValue
  | i :: rest, .struct fields, new =>
    .struct (fields.set i (setPath rest (fields.getD i .nil) new))
  | _, _, new => new

/-! ## `encoding/json`: the JSON fields of a struct type -/

/-- A JSON field of a struct type, the `field` record of `encoding/json`:
the key, whether the key comes from a tag, the index sequence that leads to
the Go field, and its type. -/
structure Field where
  name : String
  tag : Bool
  index : List Nat
  typ : GoType
  deriving Repr

/-- An embedded struct queued for the next level of the walk. -/
structure Embedded where
  name : String
  index : List Nat
  fields : List (StructField GoType)

/-- What the walk of one level gathers: the fields found so far, how many
times each struct type has been queued for the next level, and the queue of
the next level (one entry for each type). -/
structure Walk where
  fields : List Field
  nextCount : List (String × Nat)
  next : List Embedded

/-- Whether a Go identifier is exported. -/
def isExported (name : String) : Bool :=
  match name.data with
  | c :: _ => c.isUpper
  | [] => false

/-- The name part of a `json` tag, up to the first comma (`parseTag`). -/
def tagName (tag : String) : String :=
  String.mk (tag.data.takeWhile (· ≠ ','))

/-- The function `isValidTag` of `encoding/json`. -/
def isValidTag (s : String) : Bool :=
  s ≠ "" && s.data.all fun c =>
    "!#$%&()*+-./:;<=>?@[]^_\x7b|\x7d~ ".data.contains c || c.isAlphanum

/-- How often a struct type was queued. -/
def countOf (count : List (String × Nat)) (name : String) : Nat :=
  (count.lookup name).getD 0

/-- The scan of the fields of one struct at `index` (the inner loop of
`typeFields`); `cnt` is the number of times this struct type was queued and
`i` the position of the next field. A field with a key of its own, and an
embedded field that is no struct, is recorded (twice when the struct was
queued more than once, so that the duplicate cancels it); an embedded
struct without a tag is queued for the next level. -/
def scanStruct (cnt : Nat) (index : List Nat) :
    List (StructField GoType) → Nat → Walk → Walk
  | [], _, w => w
  | sf :: rest, i, w =>
    let isStruct := match sf.type with
      | .struct _ _ => true
      | _ => false
    let skipped :=
      (if sf.embedded then !isExported sf.name && !isStruct else !isExported sf.name)
        || sf.tag = "-"
    if skipped then scanStruct cnt index rest (i + 1) w
    else
      let name := if isValidTag (tagName sf.tag) then tagName sf.tag else ""
      match sf.type, (name = "" && sf.embedded : Bool) with
      | .struct tname tfields, true =>
        let c := countOf w.nextCount tname + 1
        scanStruct cnt index rest (i + 1)
          { w with
            nextCount := (tname, c) :: w.nextCount
            next := if c = 1 then w.next ++ [⟨tname, index ++ [i], tfields⟩] else w.next }
      | _, _ =>
        let f : Field := ⟨if name = "" then sf.name else name, name ≠ "", index ++ [i], sf.type⟩
        scanStruct cnt index rest (i + 1)
          { w with fields := w.fields ++ (if 1 < cnt then [f, f] else [f]) }

/-- One level of the walk: every queued struct not visited at an earlier
level is scanned. -/
def exploreLevel (count : List (String × Nat)) :
    List Embedded → List String → Walk → List String × Walk
  | [], visited, w => (visited, w)
  | f :: rest, visited, w =>
    if visited.contains f.name then exploreLevel count rest visited w
    else exploreLevel count rest (f.name :: visited)
      (scanStruct (countOf count f.name) f.index f.fields 0 w)

/-- The breadth-first walk over the embedded structs, level after level
(the outer loop of `typeFields`). -/
def explore : Nat → List Embedded → List (String × Nat) → List String → List Field →
    List Field
  | 0, _, _, _, fields => fields
  | _ + 1, [], _, _, fields => fields
  | fuel + 1, e :: es, count, visited, fields =>
    let r := exploreLevel count (e :: es) visited ⟨fields, [], []⟩
    explore fuel r.2.next r.2.nextCount r.1 r.2.fields

mutual
/-- Nesting depth of a type; it bounds the levels of the walk. -/
def typeDepth : GoType → Nat
  | .basic _ => 0
  | .slice elem => typeDepth elem + 1
  | .struct _ fields => fieldsDepth fields + 1
/-- Largest nesting depth among the types of the fields. -/
def fieldsDepth : List (StructField GoType) → Nat
  | [] => 0
  | f :: fs => max (typeDepth f.type) (fieldsDepth fs)
end

/-- The order `byIndex` of `encoding/json`. -/
def indexLess : List Nat → List Nat → Bool
  | [], [] => false
  | [], _ :: _ => true
  | _ :: _, [] => false
  | a :: as, b :: bs => if a ≠ b then a < b else indexLess as bs

/-- The order of Go strings, `a < b`: lexicographic on the UTF-8 bytes,
which is the lexicographic order on the code points. -/
def stringLess : List Char → List Char → Bool
  | [], [] => false
  | [], _ :: _ => true
  | _ :: _, [] => false
  | a :: as, b :: bs => if a ≠ b then a.toNat < b.toNat else stringLess as bs

/-- The order in which `typeFields` sorts the fields it found: by key, then
by depth, then tagged before untagged, then by index sequence. -/
def nameLess (x y : Field) : Bool :=
  if x.name ≠ y.name then stringLess x.name.data y.name.data
  else if x.index.length ≠ y.index.length then x.index.length < y.index.length
  else if x.tag ≠ y.tag then x.tag
  else indexLess x.index y.index

/-- Insertion of `x` into a list sorted by `less`. -/
def insertBy {α : Type} (less : α → α → Bool) (x : α) : List α → List α
  | [] => [x]
  | y :: ys => if less x y then x :: y :: ys else y :: insertBy less x ys

/-- Sort by `less`. -/
def sortBy {α : Type} (less : α → α → Bool) (xs : List α) : List α :=
  xs.foldr (insertBy less) []

/-- The pass of `typeFields` over the fields sorted by key, one run of
equal keys at a time: a key found once is kept; of several fields with one
key the first (the shallowest, tagged first) is kept by `dominantField`
unless the second has the same depth and the same tagging, in which case
the key is dropped altogether. -/
def dominantPass : Nat → List Field → List Field
  | 0, _ => []
  | _ + 1, [] => []
  | fuel + 1, f :: rest =>
    let run := rest.takeWhile (·.name = f.name)
    let others := rest.dropWhile (·.name = f.name)
    match run with
    | [] => f :: dominantPass fuel others
    | g :: _ =>
      if f.index.length = g.index.length ∧ f.tag = g.tag then dominantPass fuel others
      else f :: dominantPass fuel others

/-- The function `typeFields` of `encoding/json`: the JSON fields of a
struct type, in index order. (The options of a tag, `omitempty` and
`string`, are not modelled: the package uses none.) -/
def typeFields : GoType → List Field
  | .struct name fields =>
    let found := explore (typeDepth (.struct name fields) + 1) [⟨name, [], fields⟩] [] [] []
    sortBy (fun x y => indexLess x.index y.index)
      (dominantPass found.length (sortBy nameLess found))
  | _ => []

/-! ## `encoding/json`: decoding -/

/-- The package path that `reflect` prints before the name of a struct. -/
def packageName : String := "openweathermap_1c_api"

/-- Name of a basic type. -/
def Kind.name : Kind → String
  | .int => "int"
  | .int32 => "int32"
  | .uint16 => "uint16"
  | .uint32 => "uint32"
  | .float32 => "float32"
  | .float64 => "float64"
  | .string => "string"

/-- The name of a type as an `UnmarshalTypeError` reports it. -/
def GoType.name : GoType → String
  | .basic k => k.name
  | .slice elem => "[]" ++ elem.name
  | .struct n _ => packageName ++ "." ++ n

/-- Case folding of a key (`foldName`): letters are compared without regard
to case, and the Kelvin sign and the long s fold to `K` and `S`. -/
def foldName (s : String) : List Char :=
  s.data.map fun c =>
    if c = Char.ofNat 0x212A then 'K'
    else if c = Char.ofNat 0x17F then 'S'
    else c.toUpper

/-- The field an object key is stored into: the field of that very name,
or else the first field whose name equals the key up to case. -/
def lookupField (fields : List Field) (key : String) : Option Field :=
  match fields.find? (·.name = key) with
  | some f => some f
  | none => fields.find? (foldName ·.name = foldName key)

/-- The number spelled by decimal digits. -/
def digitsValue (cs : List Char) : Nat :=
  cs.foldl (fun n c => 10 * n + (c.toNat - 48)) 0

/-- The function `strconv.ParseInt(lit, 10, 64)` on a JSON number literal:
it fails on a fraction or an exponent and outside the range of int64. -/
def parseInt (lit : String) : Option Int :=
  let signed : Bool × List Char := match lit.data with
    | '-' :: r => (true, r)
    | r => (false, r)
  if signed.2 ≠ [] ∧ signed.2.all isDigit then
    let n : Int := if signed.1 then -(digitsValue signed.2 : Int) else digitsValue signed.2
    if -(2 : Int) ^ 63 ≤ n ∧ n < (2 : Int) ^ 63 then some n else none
  else none

/-- The function `strconv.ParseUint(lit, 10, 64)` on a JSON number literal:
it fails on a sign, a fraction or an exponent and from `2^64` on. -/
def parseUint (lit : String) : Option Nat :=
  if lit.data ≠ [] ∧ lit.data.all isDigit then
    if digitsValue lit.data < 2 ^ 64 then some (digitsValue lit.data) else none
  else none

/-- Drop the zeros at the end of a digit list. -/
def dropTrailingZeros (ds : List Nat) : List Nat :=
  (ds.reverse.dropWhile (· = 0)).reverse

/-- A binary floating-point format: the number of bits of the significand
(hidden bit included), and the exponents of the unit in the last place of
the smallest and of the largest finite values. -/
structure FloatFormat where
  prec : Nat
  emin : Int
  emax : Int

/-- The format of a float64. -/
def binary64 : FloatFormat := ⟨53, -1074, 971⟩

/-- The format of a float32. -/
def binary32 : FloatFormat := ⟨24, -149, 104⟩

/-- Number of binary digits of `n`; `fuel` bounds the count. -/
def bitLengthAux : Nat → Nat → Nat
  | 0, _ => 0
  | fuel + 1, n => if n = 0 then 0 else bitLengthAux fuel (n / 2) + 1

/-- Number of binary digits of a natural number. -/
def bitLength (n : Nat) : Nat := bitLengthAux n n

/-- The numerator and the denominator grown by the factor `b ^ e`: the
numerator for a positive `e`, the denominator for a negative one. -/
def scaleBy (b : Nat) (e : Int) (num den : Nat) : Nat × Nat :=
  if 0 ≤ e then (num * b ^ e.toNat, den) else (num, den * b ^ (-e).toNat)

/-- The result of rounding a positive real to a format. -/
inductive Rounded where
  | zero
  | overflow
  | finite (mant : Nat) (exp : Int)
  deriving Repr

/-- The float of the format nearest to the positive fraction `n / d`, ties
to the even significand: the value `mant × 2 ^ exp`. -/
def roundToFormat (fmt : FloatFormat) (n d : Nat) : Rounded :=
  let est : Int := (bitLength n : Int) - bitLength d
  let atLeast := scaleBy 2 est d n
  let fl : Int := if atLeast.1 ≤ atLeast.2 then est else est - 1
  let e : Int := max (fl - (fmt.prec - 1)) fmt.emin
  let frac := scaleBy 2 e d n
  let q := frac.2 / frac.1
  let r := frac.2 % frac.1
  let up : Bool := frac.1 < 2 * r || (2 * r = frac.1 && q % 2 = 1)
  let q1 := if up then q + 1 else q
  if q1 = 0 then .zero
  else
    let me : Nat × Int := if q1 = 2 ^ fmt.prec then (2 ^ (fmt.prec - 1), e + 1) else (q1, e)
    if fmt.emax < me.2 then .overflow else .finite me.1 me.2

/-- The search of `roundShortest` for the fewest digits: with `n` digits,
the decimals next to the float below and above it are tried against the
bounds; `f`, `lo` and `hi` are the float and the bounds over the common
denominator `den`, `dp` is the decimal exponent of the float. -/
def shortestLoop (f lo hi den : Nat) (inclusive : Bool) (dp : Int) :
    Nat → Nat → List Nat × Int
  | 0, _ => ([], dp)
  | fuel + 1, n =>
    let j : Int := dp - n
    let fs := scaleBy 10 (-j) f den
    let ls := scaleBy 10 (-j) lo den
    let hs := scaleBy 10 (-j) hi den
    let c := fs.1 / fs.2
    let r := fs.1 % fs.2
    let inside (x : Nat) : Bool :=
      if inclusive then ls.1 ≤ x * fs.2 && x * fs.2 ≤ hs.1
      else ls.1 < x * fs.2 && x * fs.2 < hs.1
    let okdown := inside c
    let okup := inside (c + 1)
    let pick (x : Nat) : List Nat × Int :=
      let ds := (natDigits x).map fun ch => ch.toNat - 48
      (dropTrailingZeros ds, j + ds.length)
    if okdown && okup then
      if 2 * r < fs.2 || (2 * r = fs.2 && c % 2 = 0) then pick c else pick (c + 1)
    else if okdown then pick c
    else if okup then pick (c + 1)
    else shortestLoop f lo hi den inclusive dp fuel (n + 1)

/-- The shortest decimal digits that identify the float `mant × 2 ^ exp` of
the format (`roundShortest`): the fewest digits of a decimal between the
midpoints to the neighbouring floats (the midpoints themselves count when
the significand is even), and of two such decimals the nearer one. -/
def shortestDigits (fmt : FloatFormat) (mant : Nat) (exp : Int) : List Nat × Int :=
  let lo4 := if mant = 2 ^ (fmt.prec - 1) ∧ fmt.emin < exp then 4 * mant - 1 else 4 * mant - 2
  let f := scaleBy 2 (exp - 2) (4 * mant) 1
  let lo := scaleBy 2 (exp - 2) lo4 1
  let hi := scaleBy 2 (exp - 2) (4 * mant + 2) 1
  let cand : Int := ((natDigits f.1).length : Int) - (natDigits f.2).length
  let cmp := scaleBy 10 cand f.2 f.1
  let dp : Int := if cmp.1 ≤ cmp.2 then cand + 1 else cand
  shortestLoop f.1 lo.1 hi.1 f.2 (mant % 2 = 0) dp 20 1

/-- The function `strconv.ParseFloat(lit, bits)` on a JSON number literal:
the literal is read exactly, rounded to the nearest float of the format
(ties to even; a value below half the smallest subnormal becomes zero, a
value that rounds beyond the largest finite float is a range error), and
the float is given by its shortest digits. A literal with a decimal
exponent beyond ±400 is settled without the arithmetic: it overflows, or
it is zero. -/
def parseFloat (bits : Nat) (lit : String) : Option Float64 :=
  let signed : Bool × List Char := match lit.data with
    | '-' :: r => (true, r)
    | r => (false, r)
  let ip := signed.2.span isDigit
  let fp : List Char × List Char := match ip.2 with
    | '.' :: r => r.span isDigit
    | r => ([], r)
  let e : Int := match fp.2 with
    | _ :: '-' :: ds => -(digitsValue ds : Int)
    | _ :: '+' :: ds => digitsValue ds
    | _ :: ds => digitsValue ds
    | [] => 0
  let m := digitsValue (ip.1 ++ fp.1)
  let k : Int := e - fp.1.length
  let dp : Int := (natDigits m).length + k
  if m = 0 ∨ dp < -400 then some (.finite signed.1 [] 0)
  else if 400 < dp then none
  else
    let fmt := if bits = 32 then binary32 else binary64
    let v := scaleBy 10 k m 1
    match roundToFormat fmt v.1 v.2 with
    | .zero => some (.finite signed.1 [] 0)
    | .overflow => none
    | .finite mant exp =>
      let r := shortestDigits fmt mant exp
      some (.finite signed.1 r.1 r.2)

/-- The store of a JSON number into a value of a basic kind (the number
case of `literalStore`): the value is left as it was when the literal does
not fit, and the error is reported. The type `int` is taken 64 bits wide. -/
def storeNumber (k : Kind) (lit : String) (v : GoValue) : GoValue × Option Error :=
  let misfit : GoValue × Option Error :=
    (v, some (.UnmarshalTypeError ("number " ++ lit) k.name))
  match k with
  | .string => (v, some (.UnmarshalTypeError "number" k.name))
  | .int =>
    match parseInt lit with
    | some n => (.int n, none)
    | none => misfit
  | .int32 =>
    match parseInt lit with
    | some n => if -(2 : Int) ^ 31 ≤ n ∧ n < (2 : Int) ^ 31 then (.int n, none) else misfit
    | none => misfit
  | .uint16 =>
    match parseUint lit with
    | some n => if n < 2 ^ 16 then (.int n, none) else misfit
    | none => misfit
  | .uint32 =>
    match parseUint lit with
    | some n => if n < 2 ^ 32 then (.int n, none) else misfit
    | none => misfit
  | .float32 =>
    match parseFloat 32 lit with
    | some f => (.float f, none)
    | none => misfit
  | .float64 =>
    match parseFloat 64 lit with
    | some f => (.float f, none)
    | none => misfit

/-- The first error wins (`saveError` keeps the error it has). -/
def firstError (a b : Option Error) : Option Error :=
  match a with
  | some e => some e
  | none => b

mutual
/-- The method `decodeState.value`: the JSON value `j` is stored into the
Go value `v` of type `t`. A value that does not fit the type is skipped and
reported, and decoding goes on; the result is the updated value with the
first error met. -/
def decodeValue : GoType → JSON → GoValue → GoValue × Option Error
  | t, .null, v =>
    match t with
    | .slice _ => (.nil, none)
    | _ => (v, none)
  | t, .bool _, v => (v, some (.UnmarshalTypeError "bool" t.name))
  | t, .string s, v =>
    match t with
    | .basic .string => (.string s, none)
    | _ => (v, some (.UnmarshalTypeError "string" t.name))
  | t, .number lit, v =>
    match t with
    | .basic k => storeNumber k lit v
    | _ => (v, some (.UnmarshalTypeError "number" t.name))
  | t, .array elems, v =>
    match t with
    | .slice elem =>
      let old := match v with
        | .slice xs => xs
        | _ => []
      let r := decodeElems elem elems old
      (.slice r.1, r.2)
    | _ => (v, some (.UnmarshalTypeError "array" t.name))
  | t, .object members, v =>
    match t with
    | .struct n fs => decodeMembers (typeFields (.struct n fs)) members v
    | _ => (v, some (.UnmarshalTypeError "object" t.name))
/-- The loop of `decodeState.array` over the elements: element `i` is
decoded into the element the slice already holds at `i`, or into a zero
value when the slice has to grow. -/
def decodeElems : GoType → List JSON → List GoValue → List GoValue × Option Error
  | _, [], _ => ([], none)
  | elem, j :: js, old =>
    let r := decodeValue elem j (old.headD (zeroValue elem))
    let rs := decodeElems elem js old.tail
    (r.1 :: rs.1, firstError r.2 rs.2)
/-- The loop of `decodeState.object` over the members: a key that names a
field is decoded into it, any other key is skipped with its value. -/
def decodeMembers : List Field → List (String × JSON) → GoValue → GoValue × Option Error
  | _, [], v => (v, none)
  | fields, (key, j) :: ms, v =>
    match lookupField fields key with
    | none => decodeMembers fields ms v
    | some f =>
      let r := decodeValue f.typ j (getPath f.index v)
      let rs := decodeMembers fields ms (setPath f.index v r.1)
      (rs.1, firstError r.2 rs.2)
end

/-- The function `json.Unmarshal(data, &v)` for a `v` of type `t`: the text
is checked first, and a text that is not valid JSON leaves `v` untouched;
otherwise its value is decoded into `v`. The result is `v` afterwards and
the error returned. -/
def Unmarshal (data : String) (t : GoType) (v : GoValue) : GoValue × Option Error :=
  match parseJSON data with
  | .error e => (v, some e)
  | .ok j => decodeValue t j v

/-! ## `encoding/json`: encoding -/

/-- The exponent clean-up of the float encoder: `e-09` becomes `e-9`. -/
def cleanExponent (b : List Char) : List Char :=
  match b.reverse with
  | d :: '0' :: sgn :: 'e' :: rest =>
    if sgn = '-' ∨ sgn = '+' then (d :: sgn :: 'e' :: rest).reverse else b
  | _ => b

/-- The text of a float in JSON (`floatEncoder`): plain decimal notation,
exponent notation below `1e-6` and from `1e21` on; `NaN` and the
infinities have no JSON text. -/
def jsonFloat : Float64 → Except Error (List Char)
  | .nan => .error (.UnsupportedValueError "NaN")
  | .inf false => .error (.UnsupportedValueError "+Inf")
  | .inf true => .error (.UnsupportedValueError "-Inf")
  | .finite neg d dp =>
    if d ≠ [] ∧ (dp ≤ -6 ∨ 22 ≤ dp) then .ok (cleanExponent (fmtE neg d dp (d.length - 1)))
    else .ok (fmtF neg d dp ((d.length : Int) - dp).toNat)

/-- The characters of a string inside its JSON quotes, as `json.Marshal`
escapes them (HTML-safe escaping included). -/
def escapeChars : List Char → List Char
  | [] => []
  | c :: cs =>
    (if c = '\\' ∨ c = '"' then ['\\', c]
     else if c = Char.ofNat 8 then ['\\', 'b']
     else if c = Char.ofNat 12 then ['\\', 'f']
     else if c = '\n' then ['\\', 'n']
     else if c = '\r' then ['\\', 'r']
     else if c = '\t' then ['\\', 't']
     else if c.toNat < 0x20 ∨ c = '<' ∨ c = '>' ∨ c = '&' then
       ['\\', 'u', '0', '0', hexChar (c.toNat / 16), hexChar c.toNat]
     else if c = Char.ofNat 0x2028 then "\\u2028".data
     else if c = Char.ofNat 0x2029 then "\\u2029".data
     else [c]) ++ escapeChars cs

mutual
/-- The compact JSON text of a value. -/
def renderJSON : JSON → List Char
  | .null => "null".data
  | .bool true => "true".data
  | .bool false => "false".data
  | .number lit => lit.data
  | .string s => '"' :: escapeChars s.data ++ ['"']
  | .array elems => '[' :: renderElems elems ++ [']']
  | .object members => Char.ofNat 0x7b :: renderMembers members ++ [Char.ofNat 0x7d]
/-- The elements of an array, separated by commas. -/
def renderElems : List JSON → List Char
  | [] => []
  | j :: js =>
    match js with
    | [] => renderJSON j
    | _ :: _ => renderJSON j ++ ',' :: renderElems js
/-- The members of an object, separated by commas. -/
def renderMembers : List (String × JSON) → List Char
  | [] => []
  | (key, j) :: ms =>
    match ms with
    | [] => '"' :: escapeChars key.data ++ '"' :: ':' :: renderJSON j
    | _ :: _ => '"' :: escapeChars key.data ++ '"' :: ':' :: renderJSON j ++ ',' :: renderMembers ms
end

/-- All results, or the first error. -/
def collect {α : Type} : List (Except Error α) → Except Error (List α)
  | [] => .ok []
  | .error e :: _ => .error e
  | .ok a :: rest =>
    match collect rest with
    | .error e => .error e
    | .ok as => .ok (a :: as)

/-- The JSON value `json.Marshal` writes for a Go value `v` of type `t`: a
struct becomes the object of its JSON fields (those of `typeFields`, in
index order), a slice an array (`null` when nil), a number its literal.
`fuel` bounds the nesting and is spent by one at each level. -/
def encodeValue : Nat → GoType → GoValue → Except Error JSON
  | 0, _, _ => .error (.UnsupportedValueError "nesting deeper than the type")
  | fuel + 1, t, v =>
    match t, v with
    | .basic .string, .string s => .ok (.string s)
    | .basic _, .int i => .ok (.number (String.mk (intDigits i)))
    | .basic _, .float f =>
      match jsonFloat f with
      | .error e => .error e
      | .ok lit => .ok (.number (String.mk lit))
    | .slice _, .nil => .ok .null
    | .slice elem, .slice xs =>
      match collect (xs.map (encodeValue fuel elem)) with
      | .error e => .error e
      | .ok js => .ok (.array js)
    | .struct n fs, .struct vs =>
      match collect ((typeFields (.struct n fs)).map fun f =>
          match encodeValue fuel f.typ (getPath f.index (.struct vs)) with
          | .error e => .error e
          | .ok j => .ok (f.name, j)) with
      | .error e => .error e
      | .ok ms => .ok (.object ms)
    | _, _ => .error (.UnsupportedValueError "value of another type")

/-- The function `json.Marshal(v)` for a `v` of type `t`. -/
def Marshal (t : GoType) (v : GoValue) : Except Error String :=
  match encodeValue (typeDepth t + 1) t v with
  | .error e => .error e
  | .ok j => .ok (String.mk (renderJSON j))

/-- Position and type of the field called `name` among `fields`, counting
from `i`. -/
def findField : List (StructField GoType) → String → Nat → Option (Nat × GoType)
  | [], _, _ => none
  | f :: fs, name, i => if f.name = name then some (i, f.type) else findField fs name (i + 1)

/-- The Go selector expression `v.A.B.C` on a value `v` of type `t`, every
step written out (embedded fields included). -/
def select : List String → GoType → GoValue → Option GoValue
  | [], _, v => some v
  | name :: rest, .struct _ fields, .struct vs =>
    match findField fields name 0 with
    | some (i, ft) => select rest ft (vs.getD i .nil)
    | none => none
  | _ :: _, _, _ => none

/-! ## The transport -/

/-- An HTTP response as the package uses it: what `ioutil.ReadAll` gives on
its body (the text that the bytes read spell in UTF-8, or an error) and
what `Body.Close` returns (`none` for a nil error). -/
structure HttpResponse where
  readAll : Except Error String
  close : Option Error

/-- The interface `Client`: one method, `Get(url)`. -/
structure Client where
  Get : String → Except Error HttpResponse

/-- The network, as an `http.Client` with a given `Timeout` (in nanoseconds)
meets it through `Get`. -/
structure Network where
  get : Int → String → Except Error HttpResponse

/-- The expression `time.Duration(timeout) * time.Second`, an int64 count of
nanoseconds (the product wraps around). -/
def seconds (timeout : Int) : Int :=
  (timeout * 1000000000 + 2 ^ 63) % 2 ^ 64 - 2 ^ 63

/-- The function `DefaultClient`: an `http.Client` with the timeout. -/
def DefaultClient (net : Network) (timeout : Int) : Client :=
  ⟨net.get (seconds timeout)⟩

/-- The receiver of the package's methods. `ClientTimeout` is read by
`execApiRequest` although the struct declaration in the source has no such
field; it is carried here so that the method can be embedded as written. -/
structure OpenWeatherMapOneCallAPI where
  Client : Client
  ApiKey : String
  Unit : String
  ClientTimeout : Int

/-- What a call does to the outside, in order. -/
inductive Event where
  /-- A call of `Get` on the receiver's `Client` field. -/
  | clientGet (url : String)
  /-- A call of `Get` on an `http.Client` built on the spot with `timeout`. -/
  | httpGet (timeout : Int) (url : String)
  /-- A call of `ioutil.ReadAll` on the response body. -/
  | readAll
  /-- A call of `Close` on the response body. -/
  | close
  /-- A call of `json.Unmarshal` on `data`. -/
  | unmarshal (data : String)
  deriving DecidableEq, Repr

/-- How a call ends: it returns its results, or it panics. -/
inductive Outcome (α : Type) where
  | returned (a : α)
  | panicked (e : Error)

/-! ## The methods of the package -/

/-- The method `execApiRequest`. It builds an `http.Client` of its own and
calls `Get` on it; on a response, the deferred function closes the body and
panics on a close error, whatever the read gave. The results are the body
(`none` for a nil slice) and the error (`none` for nil). -/
def execApiRequest (net : Network) (owm : OpenWeatherMapOneCallAPI) (url : String) :
    List Event × Outcome (Option String × Option Error) :=
  let timeout := seconds owm.ClientTimeout
  match net.get timeout url with
  | .error err => ([.httpGet timeout url], .returned (none, some err))
  | .ok response =>
    let results : Option String × Option Error :=
      match response.readAll with
      | .error err => (none, some err)
      | .ok body => (some body, none)
    match response.close with
    | some err => ([.httpGet timeout url, .readAll, .close], .panicked err)
    | none => ([.httpGet timeout url, .readAll, .close], .returned results)

/-- The method `processRequest`. The results are the pointer to the decoded
`Response` (`none` for nil) and the error. -/
def processRequest (net : Network) (owm : OpenWeatherMapOneCallAPI) (url : String) :
    List Event × Outcome (Option GoValue × Option Error) :=
  match execApiRequest net owm url with
  | (events, .panicked e) => (events, .panicked e)
  | (events, .returned (_, some err)) => (events, .returned (none, some err))
  | (events, .returned (body, none)) =>
    match Unmarshal (body.getD "") Response (zeroValue Response) with
    | (_, some err) => (events ++ [.unmarshal (body.getD "")], .returned (none, some err))
    | (cwr, none) => (events ++ [.unmarshal (body.getD "")], .returned (some cwr, none))

/-- The value of the local variable `url` of `GetWeatherFromLatLon`. -/
def requestUrl (owm : OpenWeatherMapOneCallAPI) (lat lon : Float64) (time : Int) : String :=
  Sprintf getBasicUrlTemplate
    [.string Version, .string Resource, .float64 lat, .float64 lon, .int64 time,
      .string owm.ApiKey]

/-- The method `GetWeatherFromLatLon`. -/
def GetWeatherFromLatLon (net : Network) (owm : OpenWeatherMapOneCallAPI)
    (lat lon : Float64) (time : Int) :
    List Event × Outcome (Option GoValue × Option Error) :=
  if owm.ApiKey = "" then ([], .returned (none, some .MissingApiKey))
  else processRequest net owm (requestUrl owm lat lon time)

/-! ## Inputs used in the examples -/

/-- The latitude 60.99. -/
def lat6099 : Float64 := .finite false [6, 0, 9, 9] 2

/-- The longitude 30.9. -/
def lon309 : Float64 := .finite false [3, 0, 9] 2

/-- A network without a route: every `Get` fails. -/
def deadNetwork : Network := ⟨fun _ _ => .error (.external "dial tcp: no route to host")⟩

/-- A network that answers every `Get` with a response of the given body,
whose `Close` returns `close`. -/
def cannedNetwork (body : String) (close : Option Error) : Network :=
  ⟨fun _ _ => .ok ⟨.ok body, close⟩⟩

/-- A test double for the interface `Client` that answers every `Get` with
the given body. -/
def cannedClient (body : String) : Client := ⟨fun _ => .ok ⟨.ok body, none⟩⟩

/-- A test double for the interface `Client` whose every `Get` fails with
a network-level error. -/
def failingClient : Client := ⟨fun _ => .error (.external "dial tcp: no route to host")⟩

/-- A receiver with the given client and key and the unit of the example
program; the timeout that `execApiRequest` reads is set to 5 seconds. -/
def exampleApi (client : Client) (key : String) : OpenWeatherMapOneCallAPI :=
  { Client := client, ApiKey := key, Unit := "metric", ClientTimeout := 5 }

/-- The `current` object of the sample payload that the comment at the end
of the source quotes from the upstream documentation. -/
def sampleCurrent : String :=
  "\x7b\"dt\": 1588935779, " ++
  "\"sunrise\": 1588936856, \"sunset\": 1588986260, \"temp\": 16.75, " ++
  "\"feels_like\": 16.07, \"pressure\": 1009, \"humidity\": 93, \"dew_point\": 15.61, " ++
  "\"uvi\": 8.97, \"clouds\": 90, \"visibility\": 12874, \"wind_speed\": 3.6, " ++
  "\"wind_deg\": 280, \"weather\": [\x7b\"id\": 501, \"main\": \"Rain\", " ++
  "\"description\": \"moderate rain\", \"icon\": \"10n\"\x7d, \x7b\"id\": 200, " ++
  "\"main\": \"Thunderstorm\", \"description\": \"thunderstorm with light rain\", " ++
  "\"icon\": \"11n\"\x7d], \"rain\": \x7b\"1h\": 2.79\x7d\x7d"

/-- The sample payload of that comment, up to the end of its `current`
object (the comment abridges what follows). -/
def samplePayload : String :=
  "\x7b\"lat\": 33.44, \"lon\": -94.04, \"timezone\": \"America/Chicago\", " ++
  "\"timezone_offset\": -18000, \"current\": " ++ sampleCurrent ++ "\x7d"

/-- The sample payload cut off in the middle of the `current` object. -/
def truncatedPayload : String :=
  "\x7b\"lat\": 33.44, \"lon\": -94.04, \"timezone\": \"America/Chicago\", " ++
  "\"timezone_offset\": -18000, \"current\": \x7b\"dt\": 15889"

/-- A `Response` that differs from the zero value in one field only:
`Current.Section.Dt` is 1. -/
def responseWithDt : GoValue := setPath [2, 0, 0] (zeroValue Response) (.int 1)

/-- A close error. -/
def closeError : Error := .external "close tcp: use of closed network connection"

/-! ## Supporting lemmas -/

/-- The template, character by character. -/
theorem getBasicUrlTemplate_data :
    getBasicUrlTemplate.data =
      ['h', 't', 't', 'p', 's', ':', '/', '/', 'a', 'p', 'i', '.', 'o', 'p', 'e', 'n', 'w', 'e', 'a', 't', 'h', 'e', 'r', 'm', 'a', 'p', '.', 'o', 'r', 'g', '/', 'd', 'a', 't', 'a', '/', '%', 'v', '/', 'o', 'n', 'e', 'c', 'a', 'l', 'l', '?', 'l', 'a', 't', '=', '%', 'v', '&', 'l', 'o', 'n', '=', '%', 'v', '&', 'e', 'x', 'c', 'l', 'u', 'd', 'e', '=', 'h', 'o', 'u', 'r', 'l', 'y', ',', 'd', 'a', 'i', 'l', 'y', '&', 'a', 'p', 'p', 'i', 'd', '=', '%', 'v'] := by
  rfl

/-- The URL, for all inputs: the six operands meet a template with four
verbs, so the version fills the first, the text of `Resource` the second
(`lat=`), the latitude the third (`lon=`) and the longitude the fourth
(`appid=`), while the time and the key end up in the `EXTRA` trailer. -/
theorem requestUrl_eq (owm : OpenWeatherMapOneCallAPI) (lat lon : Float64) (time : Int) :
    requestUrl owm lat lon time =
      "https://api.openweathermap.org/data/2.5/onecall?lat=" ++ Resource ++ "&lon=" ++
        String.mk lat.fmtV ++ "&exclude=hourly,daily&appid=" ++ String.mk lon.fmtV ++
        "%!(EXTRA int64=" ++ String.mk (intDigits time) ++ ", string=" ++ owm.ApiKey ++ ")" := by
  apply String.ext
  simp only [requestUrl, Sprintf, getBasicUrlTemplate_data, String.data_append]
  simp [doPrintf, printArg, extraArgs, Arg.fmtV, Arg.typeName, List.intercalate, Version,
    Resource]

/-- A decimal digit is read back from its character. -/
theorem digitChar_toNat (d : Nat) : (digitChar d).toNat - 48 = d % 10 := by
  have h : d % 10 < 10 := Nat.mod_lt _ (by decide)
  unfold digitChar
  generalize d % 10 = k at h
  interval_cases k <;> rfl

/-- The character of a decimal digit is not the minus sign. -/
theorem digitChar_ne_minus (d : Nat) : digitChar d ≠ '-' := by
  have h : d % 10 < 10 := Nat.mod_lt _ (by decide)
  unfold digitChar
  generalize d % 10 = k at h
  interval_cases k <;> decide

/-- The number spelled by digits followed by one more digit. -/
theorem digitsValue_append (ds : List Char) (c : Char) :
    digitsValue (ds ++ [c]) = 10 * digitsValue ds + (c.toNat - 48) := by
  simp [digitsValue, List.foldl_append]

/-- The digits that `natDigitsAux` puts before `acc` are not empty, hold no
minus sign and spell `n`. -/
theorem natDigitsAux_spec (fuel : Nat) :
    ∀ (n : Nat) (acc : List Char), n < fuel →
      ∃ ds, natDigitsAux fuel n acc = ds ++ acc ∧ ds ≠ [] ∧ (∀ c ∈ ds, c ≠ '-') ∧
        digitsValue ds = n := by
  induction fuel with
  | zero => intro n acc h; omega
  | succ fuel ih =>
    intro n acc h
    unfold natDigitsAux
    by_cases h10 : n < 10
    · refine ⟨[digitChar n], by simp [h10], by simp, ?_, ?_⟩
      · intro c hc
        simp only [List.mem_singleton] at hc
        rw [hc]
        exact digitChar_ne_minus n
      · have := digitChar_toNat n
        simp only [digitsValue, List.foldl_cons, List.foldl_nil]
        omega
    · have hlt : n / 10 < fuel := by omega
      obtain ⟨ds, hds, hne, hminus, hval⟩ := ih (n / 10) (digitChar (n % 10) :: acc) hlt
      refine ⟨ds ++ [digitChar (n % 10)], by simp [h10, hds], by simp, ?_, ?_⟩
      · intro c hc
        rcases List.mem_append.mp hc with hc | hc
        · exact hminus c hc
        · simp only [List.mem_singleton] at hc
          rw [hc]
          exact digitChar_ne_minus _
      · rw [digitsValue_append, hval, digitChar_toNat]
        omega

/-- The decimal rendering of a natural number spells that number, is not
empty and holds no minus sign. -/
theorem natDigits_spec (n : Nat) :
    natDigits n ≠ [] ∧ (∀ c ∈ natDigits n, c ≠ '-') ∧ digitsValue (natDigits n) = n := by
  obtain ⟨ds, hds, hne, hminus, hval⟩ := natDigitsAux_spec (n + 1) n [] (by omega)
  have h : natDigits n = ds := by simp [natDigits, hds]
  rw [h]
  exact ⟨hne, hminus, hval⟩

/-- Different integers have different decimal renderings. -/
theorem intDigits_injective (a b : Int) (h : intDigits a = intDigits b) : a = b := by
  unfold intDigits at h
  have ha := natDigits_spec a.natAbs
  have hb := natDigits_spec b.natAbs
  by_cases hna : a < 0 <;> by_cases hnb : b < 0
  · simp only [hna, hnb, if_true, List.cons.injEq, true_and] at h
    have : a.natAbs = b.natAbs := by rw [← ha.2.2, ← hb.2.2, h]
    omega
  · simp only [hna, hnb, if_true, if_false] at h
    have hm : '-' ∈ natDigits b.natAbs := by rw [← h]; simp
    exact absurd rfl (hb.2.1 _ hm)
  · simp only [hna, hnb, if_true, if_false] at h
    have hm : '-' ∈ natDigits a.natAbs := by rw [h]; simp
    exact absurd rfl (ha.2.1 _ hm)
  · simp only [hna, hnb, if_false] at h
    have : a.natAbs = b.natAbs := by rw [← ha.2.2, ← hb.2.2, h]
    omega

/-- The URL determines the time: two calls that differ in `time` only build
different URLs. -/
theorem requestUrl_time_injective (owm : OpenWeatherMapOneCallAPI) (lat lon : Float64)
    (t1 t2 : Int) (h : requestUrl owm lat lon t1 = requestUrl owm lat lon t2) : t1 = t2 := by
  have key : ∀ t, (requestUrl owm lat lon t).data =
      ("https://api.openweathermap.org/data/2.5/onecall?lat=" ++ Resource ++ "&lon=" ++
        String.mk lat.fmtV ++ "&exclude=hourly,daily&appid=" ++ String.mk lon.fmtV ++
        "%!(EXTRA int64=").data ++ (intDigits t ++ (", string=" ++ owm.ApiKey ++ ")").data) := by
    intro t
    rw [requestUrl_eq]
    simp only [String.data_append, List.append_assoc]
  have hd := congrArg String.data h
  rw [key t1, key t2] at hd
  exact intDigits_injective _ _ (List.append_cancel_right (List.append_cancel_left hd))

/-- What `execApiRequest` does when `Get` fails. -/
theorem execApiRequest_get_error (net : Network) (owm : OpenWeatherMapOneCallAPI)
    (url : String) (e : Error) (hget : net.get (seconds owm.ClientTimeout) url = .error e) :
    execApiRequest net owm url =
      ([.httpGet (seconds owm.ClientTimeout) url], .returned (none, some e)) := by
  simp [execApiRequest, hget]

/-- What `execApiRequest` does when `Get` succeeds and the close fails. -/
theorem execApiRequest_close_error (net : Network) (owm : OpenWeatherMapOneCallAPI)
    (url : String) (resp : HttpResponse) (e : Error)
    (hget : net.get (seconds owm.ClientTimeout) url = .ok resp) (hclose : resp.close = some e) :
    execApiRequest net owm url =
      ([.httpGet (seconds owm.ClientTimeout) url, .readAll, .close], .panicked e) := by
  simp [execApiRequest, hget, hclose]

/-- What `execApiRequest` does when `Get`, the read and the close succeed. -/
theorem execApiRequest_ok (net : Network) (owm : OpenWeatherMapOneCallAPI)
    (url : String) (resp : HttpResponse) (body : String)
    (hget : net.get (seconds owm.ClientTimeout) url = .ok resp)
    (hread : resp.readAll = .ok body) (hclose : resp.close = none) :
    execApiRequest net owm url =
      ([.httpGet (seconds owm.ClientTimeout) url, .readAll, .close],
        .returned (some body, none)) := by
  simp [execApiRequest, hget, hread, hclose]

/-- The events of `execApiRequest` never include a call on the receiver's
`Client`. -/
theorem execApiRequest_events (net : Network) (owm : OpenWeatherMapOneCallAPI) (url : String)
    (u : String) : Event.clientGet u ∉ (execApiRequest net owm url).1 := by
  cases hg : net.get (seconds owm.ClientTimeout) url with
  | error err => simp [execApiRequest, hg]
  | ok response =>
    cases hc : response.close with
    | none => simp [execApiRequest, hg, hc]
    | some err => simp [execApiRequest, hg, hc]

/-- The results of `execApiRequest` do not depend on the receiver's
`Client`. -/
theorem execApiRequest_client (net : Network) (owm : OpenWeatherMapOneCallAPI)
    (client : Client) (url : String) :
    execApiRequest net { owm with Client := client } url = execApiRequest net owm url := by
  rfl

/-- A text that is not valid JSON makes `json.Unmarshal` return the syntax
error. -/
theorem Unmarshal_syntax_error (data : String) (t : GoType) (v : GoValue) (e : Error)
    (h : parseJSON data = .error e) : Unmarshal data t v = (v, some e) := by
  simp [Unmarshal, h]

/-- The JSON fields of `Response`. The three sections are embedded without
a tag, so the fields of `Section` are promoted to the top level, and
`Section` is queued three times for one scan: each of its own keys (`dt`,
`main`, `wind`, `rain`, `clouds`, `uvi`, `weather`) is recorded twice and
cancelled. `Sun`, embedded in `Section`, is queued once by that one scan,
so its keys stay, and lead into the `Current` section. No key `current`,
`hourly` or `minutely` exists. -/
theorem typeFields_Response :
    (typeFields Response).map (fun f => (f.name, f.index)) =
      [("lat", [0, 0]), ("lon", [0, 1]), ("timezone", [1, 0]), ("timezone_offset", [1, 1]),
        ("sunrise", [2, 0, 1, 0]), ("sunset", [2, 0, 1, 1])] := by
  rfl

/-- The JSON fields of `Section` on its own. -/
theorem typeFields_Section :
    (typeFields Section).map (fun f => (f.name, f.index)) =
      [("dt", [0]), ("sunrise", [1, 0]), ("sunset", [1, 1]), ("main", [2]), ("wind", [3]),
        ("rain", [4]), ("clouds", [5]), ("uvi", [6]), ("weather", [7])] := by
  rfl

/-- The `current` object of the sample payload does not fit `Section`
either: decoded into a `Section` directly, its numbers under `uvi` and
`clouds` are rejected (`Uvi` and `Clouds` are structs; the first error is
reported), and `temp`, which `Section` expects inside an object under
`main`, is skipped, so that `Main.Temp` stays 0; the time stamp does
arrive. -/
theorem sampleCurrent_into_Section :
    (Unmarshal sampleCurrent Section (zeroValue Section)).2 =
      some (.UnmarshalTypeError "number" "openweathermap_1c_api.Uvi") ∧
    select ["Main", "Temp"] Section (Unmarshal sampleCurrent Section (zeroValue Section)).1 =
      some (.float Float64.zero) ∧
    select ["Dt"] Section (Unmarshal sampleCurrent Section (zeroValue Section)).1 =
      some (.int 1588935779) := by
  refine ⟨by rfl, by rfl, by rfl⟩

/-- A literal with more digits than a float64 holds is rounded to the
nearest float, which is then known by its shortest digits. -/
theorem parseFloat_rounds :
    parseFloat 64 "9007199254740993" =
      some (.finite false [9, 0, 0, 7, 1, 9, 9, 2, 5, 4, 7, 4, 0, 9, 9, 2] 16) ∧
    parseFloat 64 "0.1000000000000000055511151231257827" = some (.finite false [1] 0) ∧
    parseFloat 32 "16777217" = some (.finite false [1, 6, 7, 7, 7, 2, 1, 6] 8) := by
  refine ⟨by rfl, by rfl, by rfl⟩

/-- A top-level value that is no object is reported as a type error. -/
theorem Unmarshal_top_level_array :
    (Unmarshal "[]" Response (zeroValue Response)).2 =
      some (.UnmarshalTypeError "array" "openweathermap_1c_api.Response") := by
  rfl

/-- A value of the wrong JSON type for a field of `Response` is reported as
a type error. -/
theorem Unmarshal_lat_string :
    (Unmarshal "\x7b\"lat\": \"north\"\x7d" Response (zeroValue Response)).2 =
      some (.UnmarshalTypeError "string" "float64") := by
  rfl

/-- The key `current` is unknown to `Response`, so whatever stands under it
is accepted and skipped: a number in place of the section is no error. -/
theorem Unmarshal_current_number :
    Unmarshal "\x7b\"current\": 5\x7d" Response (zeroValue Response) =
      (zeroValue Response, none) := by
  rfl

/-- With a non-empty key, if the `Get` that the call performs (on the
`http.Client` built by `execApiRequest`, for the URL built) returns an
error `e`, then `GetWeatherFromLatLon` returns a nil `Response` and the
error `e` itself; the call consists of that one `Get`, so `json.Unmarshal`
is not attempted. -/
theorem http_get_error_is_returned (net : Network) (owm : OpenWeatherMapOneCallAPI)
    (lat lon : Float64) (time : Int) (e : Error) (hkey : owm.ApiKey ≠ "")
    (hget : net.get (seconds owm.ClientTimeout) (requestUrl owm lat lon time) = .error e) :
    GetWeatherFromLatLon net owm lat lon time =
        ([.httpGet (seconds owm.ClientTimeout) (requestUrl owm lat lon time)],
          .returned (none, some e)) ∧
    ∀ data, Event.unmarshal data ∉ (GetWeatherFromLatLon net owm lat lon time).1 := by
  have h : GetWeatherFromLatLon net owm lat lon time =
      ([.httpGet (seconds owm.ClientTimeout) (requestUrl owm lat lon time)],
        .returned (none, some e)) := by
    simp [GetWeatherFromLatLon, hkey, processRequest, execApiRequest_get_error net owm _ e hget]
  refine ⟨h, ?_⟩
  intro data
  rw [h]
  simp

/-- The same on a network without a route. -/
theorem http_get_error_is_returned_example :
    (exampleApi (cannedClient samplePayload) "TESTKEY").ApiKey ≠ "" ∧
    (GetWeatherFromLatLon deadNetwork (exampleApi (cannedClient samplePayload) "TESTKEY")
        lat6099 lon309 1586468027 =
      ([.httpGet (seconds 5)
          (requestUrl (exampleApi (cannedClient samplePayload) "TESTKEY") lat6099 lon309
            1586468027)],
        .returned (none, some (.external "dial tcp: no route to host"))) ∧
    ∀ data, Event.unmarshal data ∉
      (GetWeatherFromLatLon deadNetwork (exampleApi (cannedClient samplePayload) "TESTKEY")
        lat6099 lon309 1586468027).1) :=
  ⟨by decide, http_get_error_is_returned deadNetwork _ _ _ _ _ (by decide) rfl⟩

/-! ## The claims -/

/-- C1: with an empty `ApiKey`, `GetWeatherFromLatLon` returns a nil
`Response` together with `MissingApiKey`, whatever `lat`, `lon` and `time`
are, and does nothing to the outside: no `Get` of any kind is called (the
list of events is empty). -/
theorem missing_api_key_fails_fast (net : Network) (owm : OpenWeatherMapOneCallAPI)
    (lat lon : Float64) (time : Int) (hkey : owm.ApiKey = "") :
    GetWeatherFromLatLon net owm lat lon time =
      ([], .returned (none, some .MissingApiKey)) := by
  simp [GetWeatherFromLatLon, hkey]

/-- C1, at the receiver of the example program with its key left empty. -/
theorem missing_api_key_fails_fast_witness :
    (exampleApi (cannedClient samplePayload) "").ApiKey = "" ∧
    GetWeatherFromLatLon (cannedNetwork samplePayload none)
        (exampleApi (cannedClient samplePayload) "") lat6099 lon309 1586468027 =
      ([], .returned (none, some .MissingApiKey)) :=
  ⟨rfl, missing_api_key_fails_fast _ _ _ _ _ rfl⟩

/-- C2 (the code, on every input and at the claim's own witness): the URL
built is not the one claimed. `Sprintf` is handed six operands for the four
verbs of the template, so `lat=` receives the text of `Resource`, `lon=`
the latitude, `appid=` the longitude, and the time and the key land in an
`EXTRA` trailer; for lat=60.99, lon=30.9 and the key TESTKEY this is the
first text below, not the second. -/
theorem url_at_testkey :
    (∀ (owm : OpenWeatherMapOneCallAPI) (lat lon : Float64) (time : Int),
      requestUrl owm lat lon time =
        "https://api.openweathermap.org/data/2.5/onecall?lat=" ++ Resource ++ "&lon=" ++
          String.mk lat.fmtV ++ "&exclude=hourly,daily&appid=" ++ String.mk lon.fmtV ++
          "%!(EXTRA int64=" ++ String.mk (intDigits time) ++ ", string=" ++ owm.ApiKey ++
          ")") ∧
    requestUrl (exampleApi (cannedClient samplePayload) "TESTKEY") lat6099 lon309 1586468027 =
      "https://api.openweathermap.org/data/2.5/onecall?lat=onecall?lat=%v&lon=%v" ++
      "&exclude=hourly,daily&appid=%v&lon=60.99&exclude=hourly,daily&appid=30.9" ++
      "%!(EXTRA int64=1586468027, string=TESTKEY)" ∧
    requestUrl (exampleApi (cannedClient samplePayload) "TESTKEY") lat6099 lon309 1586468027 ≠
      "https://api.openweathermap.org/data/2.5/onecall?lat=60.99&lon=30.9" ++
      "&exclude=hourly,daily&appid=TESTKEY" :=
  ⟨requestUrl_eq, by decide, by decide⟩

/-- C3 (the code, on every input and at two times): the URL depends on the
`time` argument, which is printed into the `EXTRA` trailer. Calls that
build the same URL have the same time; the times 0 and 1 give different
URLs for the same coordinates and key. -/
theorem url_depends_on_time :
    (∀ (owm : OpenWeatherMapOneCallAPI) (lat lon : Float64) (t1 t2 : Int),
      requestUrl owm lat lon t1 = requestUrl owm lat lon t2 → t1 = t2) ∧
    requestUrl (exampleApi (cannedClient samplePayload) "TESTKEY") lat6099 lon309 0 ≠
      requestUrl (exampleApi (cannedClient samplePayload) "TESTKEY") lat6099 lon309 1 :=
  ⟨requestUrl_time_injective, by decide⟩

/-- C4 (the code on every input): `GetWeatherFromLatLon` never calls `Get`
on the receiver's `Client` field, and its events and results are the same
whatever that field holds: the request goes through an `http.Client` that
`execApiRequest` builds itself. -/
theorem injected_client_is_ignored (net : Network) (owm : OpenWeatherMapOneCallAPI)
    (client : Client) (lat lon : Float64) (time : Int) :
    (∀ url, Event.clientGet url ∉ (GetWeatherFromLatLon net owm lat lon time).1) ∧
    GetWeatherFromLatLon net { owm with Client := client } lat lon time =
      GetWeatherFromLatLon net owm lat lon time := by
  refine ⟨?_, rfl⟩
  intro u
  unfold GetWeatherFromLatLon
  split
  · simp
  · unfold processRequest
    have hev := execApiRequest_events net owm (requestUrl owm lat lon time) u
    split
    · rename_i h
      rw [h] at hev
      exact hev
    · rename_i h
      rw [h] at hev
      exact hev
    · rename_i h
      rw [h] at hev
      split <;> simpa using hev

/-- C5 (the code on a failing test double): the receiver's `Client` is a
double whose `Get` returns a network-level error, the network itself
answers with the sample payload. `GetWeatherFromLatLon` does not return
that error: it never calls the double, fetches through the `http.Client`
that `execApiRequest` builds, calls `json.Unmarshal` on the body and
returns the decoded `Response` with a nil error. -/
theorem failing_client_double_is_bypassed :
    (∀ url, failingClient.Get url = .error (.external "dial tcp: no route to host")) ∧
    GetWeatherFromLatLon (cannedNetwork samplePayload none)
        (exampleApi failingClient "TESTKEY") lat6099 lon309 1586468027 =
      ([.httpGet (seconds 5)
          (requestUrl (exampleApi failingClient "TESTKEY") lat6099 lon309 1586468027),
          .readAll, .close, .unmarshal samplePayload],
        .returned (some (Unmarshal samplePayload Response (zeroValue Response)).1, none)) := by
  refine ⟨fun _ => rfl, by rfl⟩

/-- C6 (the code on the sample payload): decoding the sample payload
succeeds, but nothing of its `current` object reaches the `Response`:
`Current.Section.Main.Temp` is 0, not 16.75, and `Current.Section.Weather`
is nil, so it has no first element. `Response` embeds `Current`, `Hourly`
and `Minutely` without a tag, so it has no JSON field named `current`, and
the key is skipped as unknown; the top-level `lat` does arrive. -/
theorem sample_payload_loses_current :
    (Unmarshal samplePayload Response (zeroValue Response)).2 = none ∧
    select ["Coordinate", "Lat"] Response
        (Unmarshal samplePayload Response (zeroValue Response)).1 =
      some (.float (.finite false [3, 3, 4, 4] 2)) ∧
    select ["Current", "Section", "Main", "Temp"] Response
        (Unmarshal samplePayload Response (zeroValue Response)).1 =
      some (.float Float64.zero) ∧
    select ["Current", "Section", "Weather"] Response
        (Unmarshal samplePayload Response (zeroValue Response)).1 =
      some .nil := by
  refine ⟨by rfl, by rfl, by rfl, by rfl⟩

/-- C7 (the code on one value): a `Response` whose `Current.Section.Dt` is
1 is encoded without that field (`dt` is none of the JSON fields of
`Response`), and decoding the text gives the zero `Response`, whose
`Current.Section.Dt` is 0: the round trip loses the field. -/
theorem round_trip_loses_dt :
    select ["Current", "Section", "Dt"] Response responseWithDt = some (.int 1) ∧
    Marshal Response responseWithDt =
      .ok ("\x7b\"lat\":0,\"lon\":0,\"timezone\":\"\",\"timezone_offset\":0," ++
        "\"sunrise\":0,\"sunset\":0\x7d") ∧
    Unmarshal ("\x7b\"lat\":0,\"lon\":0,\"timezone\":\"\",\"timezone_offset\":0," ++
        "\"sunrise\":0,\"sunset\":0\x7d") Response (zeroValue Response) =
      (zeroValue Response, none) ∧
    select ["Current", "Section", "Dt"] Response (zeroValue Response) = some (.int 0) := by
  refine ⟨by rfl, by rfl, by rfl, by rfl⟩

/-- C8 (counterexample): a response whose body is truncated JSON and whose
`Close` fails makes the call panic with the close error instead of
returning a decode error. -/
theorem truncated_body_with_close_error_panics :
    parseJSON truncatedPayload = .error (.SyntaxError "unexpected end of JSON input") ∧
    GetWeatherFromLatLon (cannedNetwork truncatedPayload (some closeError))
        (exampleApi (cannedClient samplePayload) "TESTKEY") lat6099 lon309 1586468027 =
      ([.httpGet (seconds 5)
          (requestUrl (exampleApi (cannedClient samplePayload) "TESTKEY") lat6099 lon309
            1586468027), .readAll, .close],
        .panicked closeError) := by
  refine ⟨by rfl, by rfl⟩

/-- C8 (amended): with a non-empty key, when the `Get` succeeds, the body
is read and closed without error, and `json.Unmarshal` rejects the body
with `err` (the body is not valid JSON, truncated input for one, or a
value in it does not fit the Go type it is decoded into), then
`GetWeatherFromLatLon` returns a nil `Response` together with `err`
itself, and it returns rather than panics. -/
theorem decode_error_is_returned (net : Network) (owm : OpenWeatherMapOneCallAPI)
    (lat lon : Float64) (time : Int) (resp : HttpResponse) (body : String) (err : Error)
    (hkey : owm.ApiKey ≠ "")
    (hget : net.get (seconds owm.ClientTimeout) (requestUrl owm lat lon time) = .ok resp)
    (hread : resp.readAll = .ok body) (hclose : resp.close = none)
    (hbad : parseJSON body = .error err ∨
      ∃ j, parseJSON body = .ok j ∧ (decodeValue Response j (zeroValue Response)).2 = some err) :
    GetWeatherFromLatLon net owm lat lon time =
      ([.httpGet (seconds owm.ClientTimeout) (requestUrl owm lat lon time), .readAll, .close,
          .unmarshal body],
        .returned (none, some err)) := by
  have hun : (Unmarshal body Response (zeroValue Response)).2 = some err := by
    rcases hbad with h | ⟨j, hj, hd⟩
    · simp [Unmarshal, h]
    · simp [Unmarshal, hj, hd]
  have hex := execApiRequest_ok net owm _ resp body hget hread hclose
  simp only [GetWeatherFromLatLon, hkey, if_false, processRequest, hex, Option.getD_some]
  generalize Unmarshal body Response (zeroValue Response) = r at hun
  obtain ⟨v, e⟩ := r
  simp only at hun
  subst hun
  rfl

/-- C8 (amended), on the truncated sample payload. -/
theorem decode_error_is_returned_witness :
    (exampleApi (cannedClient samplePayload) "TESTKEY").ApiKey ≠ "" ∧
    (parseJSON truncatedPayload = .error (.SyntaxError "unexpected end of JSON input") ∨
      ∃ j, parseJSON truncatedPayload = .ok j ∧
        (decodeValue Response j (zeroValue Response)).2 =
          some (.SyntaxError "unexpected end of JSON input")) ∧
    GetWeatherFromLatLon (cannedNetwork truncatedPayload none)
        (exampleApi (cannedClient samplePayload) "TESTKEY") lat6099 lon309 1586468027 =
      ([.httpGet (seconds 5)
          (requestUrl (exampleApi (cannedClient samplePayload) "TESTKEY") lat6099 lon309
            1586468027), .readAll, .close, .unmarshal truncatedPayload],
        .returned (none, some (.SyntaxError "unexpected end of JSON input"))) :=
  ⟨by decide, Or.inl (by rfl),
    decode_error_is_returned (cannedNetwork truncatedPayload none) _ _ _ _
      ⟨.ok truncatedPayload, none⟩ truncatedPayload _ (by decide) rfl rfl rfl (Or.inl (by rfl))⟩

/-- C9: whenever `GetWeatherFromLatLon` returns, exactly one of its two
results is non-nil: either the `Response` pointer is non-nil and the error
is nil, or the pointer is nil and the error is non-nil. -/
theorem no_partial_success (net : Network) (owm : OpenWeatherMapOneCallAPI)
    (lat lon : Float64) (time : Int) (r : Option GoValue) (e : Option Error)
    (h : (GetWeatherFromLatLon net owm lat lon time).2 = .returned (r, e)) :
    (r ≠ none ∧ e = none) ∨ (r = none ∧ e ≠ none) := by
  unfold GetWeatherFromLatLon at h
  split at h
  · simp only [Outcome.returned.injEq, Prod.mk.injEq] at h
    obtain ⟨hr, he⟩ := h
    subst hr he
    simp
  · unfold processRequest at h
    split at h
    · simp at h
    · simp only [Outcome.returned.injEq, Prod.mk.injEq] at h
      obtain ⟨hr, he⟩ := h
      subst hr he
      simp
    · split at h
      · simp only [Outcome.returned.injEq, Prod.mk.injEq] at h
        obtain ⟨hr, he⟩ := h
        subst hr he
        simp
      · simp only [Outcome.returned.injEq, Prod.mk.injEq] at h
        obtain ⟨hr, he⟩ := h
        subst hr he
        simp

/-- C9, on a call that returns a decoded `Response`. -/
theorem no_partial_success_witness :
    (GetWeatherFromLatLon (cannedNetwork samplePayload none)
        (exampleApi (cannedClient samplePayload) "TESTKEY") lat6099 lon309 1586468027).2 =
      .returned (some (Unmarshal samplePayload Response (zeroValue Response)).1, none) ∧
    ((some (Unmarshal samplePayload Response (zeroValue Response)).1 ≠ none ∧
        (none : Option Error) = none) ∨
      (some (Unmarshal samplePayload Response (zeroValue Response)).1 = none ∧
        (none : Option Error) ≠ none)) :=
  ⟨by rfl, no_partial_success (cannedNetwork samplePayload none)
    (exampleApi (cannedClient samplePayload) "TESTKEY") lat6099 lon309 1586468027 _ _ (by rfl)⟩

/-- C10 (counterexample): the `Get` succeeds, `Body.Close` returns an
error, and `execApiRequest` panics with it; nothing is returned. -/
theorem body_close_failure_aborts :
    (cannedNetwork samplePayload (some closeError)).get (seconds 5) "https://example.org/" =
      .ok ⟨.ok samplePayload, some closeError⟩ ∧
    execApiRequest (cannedNetwork samplePayload (some closeError))
        (exampleApi (cannedClient samplePayload) "TESTKEY") "https://example.org/" =
      ([.httpGet (seconds 5) "https://example.org/", .readAll, .close],
        .panicked closeError) := by
  refine ⟨by rfl, by rfl⟩

/-- C10 (amended): a failure to close the response body is raised as a
panic: whenever the `Get` succeeds and the subsequent `Body.Close` returns
an error `e`, `execApiRequest` panics with `e` once the body has been read,
and so does `GetWeatherFromLatLon` (for a non-empty key), before any
decoding. -/
theorem close_failure_is_a_panic (net : Network) (owm : OpenWeatherMapOneCallAPI)
    (lat lon : Float64) (time : Int) (resp : HttpResponse) (e : Error)
    (hkey : owm.ApiKey ≠ "")
    (hget : net.get (seconds owm.ClientTimeout) (requestUrl owm lat lon time) = .ok resp)
    (hclose : resp.close = some e) :
    execApiRequest net owm (requestUrl owm lat lon time) =
        ([.httpGet (seconds owm.ClientTimeout) (requestUrl owm lat lon time), .readAll, .close],
          .panicked e) ∧
    GetWeatherFromLatLon net owm lat lon time =
        ([.httpGet (seconds owm.ClientTimeout) (requestUrl owm lat lon time), .readAll, .close],
          .panicked e) := by
  have hex := execApiRequest_close_error net owm _ resp e hget hclose
  refine ⟨hex, ?_⟩
  simp [GetWeatherFromLatLon, hkey, processRequest, hex]

/-- C10 (amended), on a response that carries the sample payload. -/
theorem close_failure_is_a_panic_witness :
    (exampleApi (cannedClient samplePayload) "TESTKEY").ApiKey ≠ "" ∧
    execApiRequest (cannedNetwork samplePayload (some closeError))
        (exampleApi (cannedClient samplePayload) "TESTKEY")
        (requestUrl (exampleApi (cannedClient samplePayload) "TESTKEY") lat6099 lon309
          1586468027) =
      ([.httpGet (seconds 5)
          (requestUrl (exampleApi (cannedClient samplePayload) "TESTKEY") lat6099 lon309
            1586468027), .readAll, .close],
        .panicked closeError) ∧
    GetWeatherFromLatLon (cannedNetwork samplePayload (some closeError))
        (exampleApi (cannedClient samplePayload) "TESTKEY") lat6099 lon309 1586468027 =
      ([.httpGet (seconds 5)
          (requestUrl (exampleApi (cannedClient samplePayload) "TESTKEY") lat6099 lon309
            1586468027), .readAll, .close],
        .panicked closeError) :=
  ⟨by decide, close_failure_is_a_panic (cannedNetwork samplePayload (some closeError)) _ _ _ _
    ⟨.ok samplePayload, some closeError⟩ closeError (by decide) rfl rfl⟩

end OneCall
